import Mathlib

/-!
Shallow embedding of `src/octonag/configuration.py` (OctoNag).

Python values are modelled as follows:
* a value that may be Python `None` is an `Option`;
* a YAML list of names is a `List String`; the Python set built by
  `{*lst}` is modelled by `List.dedup` (membership-equivalent);
* a Python dict is an association list `List (key × value)` in insertion
  order; `dict[k]` is `lookup`, `k in dict` is key membership;
* the module-level mutable sets `blocked` and `mapped` are the two fields
  of an explicit state `SysState` threaded through every wrapper call;
* `sys.exit(1)` during configuration loading is `Option.none`;
* an uncaught exception inside a wrapper (`KeyError`, `UnboundLocalError`,
  `AttributeError`) is `Except.error`;
* `logging.info` lines emitted by one wrapper call are returned as a
  `List String` of the formatted messages.
-/

namespace Octonag

/-- Dict lookup on an association list: Python `d[k]` / `d.get(k)`. -/
def lookup {β : Type} (m : List (String × β)) (k : String) : Option β :=
  (m.find? (fun p => p.1 = k)).map (fun p => p.2)

/-- Keys of an association list, Python `d.keys()` (with duplicates kept). -/
def keys {β : Type} (m : List (String × β)) : List String :=
  m.map Prod.fst

/-- Python truthiness of an optional list: `None` and `[]` are falsy. -/
def truthy : Option (List String) → Bool
  | none => false
  | some l => !l.isEmpty

/-- Python `x and {*x}` (configuration.py lines 42-43): `None` stays `None`,
an empty (falsy) list is returned unchanged, a non-empty list becomes the
set of its elements (modelled by `dedup`). -/
def py_and_set (x : Option (List String)) : Option (List String) :=
  match x with
  | none => none
  | some l => if l.isEmpty then some l else some l.dedup

/-- The raw mapping parsed from `conf/config.yaml`, keys as read by
`_config.__init__`. `whitelist`/`blacklist` may be YAML `null`. -/
structure RawConfig where
  use_jira : Bool
  manually_resolve_users : List (String × String)
  repositories : List (String × List String)
  whitelist : Option (List String)
  blacklist : Option (List String)
  ignore_no_assigned : Bool
  ignore_no_requested : Bool
  send_greeting : Bool
  default_email_domain : String
  deriving DecidableEq, Repr

/-- The environment variables read by `_config.__init__`; `none` means the
variable is unset (`os.getenv` returned `None`). -/
structure Env where
  github_api_token : Option String
  slack_api_token : Option String
  jira_user : Option String
  jira_pass : Option String
  debug_uid : Option String
  deriving DecidableEq, Repr

/-- The fields of the `_config` singleton after a successful `__init__`.
`github_token`/`slack_token` are plain strings because `__init__` exits
unless both are present. `jira_user`/`jira_pass` are doubly optional:
the outer `Option` is whether the attribute exists at all — `__init__`
assigns it only under `if configs['use_jira']:`, and reading a
never-assigned attribute raises `AttributeError` — and the inner
`Option` is the value `os.getenv` returned, which may be Python `None`
without any check. -/
structure Settings where
  github_token : String
  slack_token : String
  jira_user : Option (Option String)
  jira_pass : Option (Option String)
  map_users : List (String × String)
  repositories : List (String × List String)
  whitelist : Option (List String)
  blacklist : Option (List String)
  use_jira : Bool
  ignore_assigned : Bool
  ignore_requested : Bool
  send_greeting : Bool
  debug_uid : Option String
  default_email_domain : String
  deriving DecidableEq, Repr

/-- `_config.__init__` (configuration.py lines 27-49): reads the tokens,
conditionally reads the JIRA credentials, exits (`none`) when the Slack or
Github token is missing, and otherwise builds the settings object,
normalizing `whitelist`/`blacklist` with `x and {*x}`. -/
def config_init (configs : RawConfig) (env : Env) : Option Settings :=
  let github_token := env.github_api_token
  let slack_token := env.slack_api_token
  let jira_user := if configs.use_jira then some env.jira_user else none
  let jira_pass := if configs.use_jira then some env.jira_pass else none
  match slack_token, github_token with
  | some slackT, some githubT =>
      some
        { github_token := githubT
          slack_token := slackT
          jira_user := jira_user
          jira_pass := jira_pass
          map_users := configs.manually_resolve_users
          repositories := configs.repositories
          whitelist := py_and_set configs.whitelist
          blacklist := py_and_set configs.blacklist
          use_jira := configs.use_jira
          ignore_assigned := configs.ignore_no_assigned
          ignore_requested := configs.ignore_no_requested
          send_greeting := configs.send_greeting
          debug_uid := env.debug_uid
          default_email_domain := configs.default_email_domain }
  | _, _ => none

/-- The module-level mutable sets `blocked` and `mapped` (lines 56-57),
made explicit. Lists with set semantics; `add` is cons. -/
structure SysState where
  blocked : List String
  mapped : List String
  deriving DecidableEq, Repr

/-- The initial state: both sets start empty at import time. -/
def initState : SysState := ⟨[], []⟩

/-- The `collection` selected by `restrict`'s wrapper from `list_type`
(lines 81-86). -/
def select_collection (list_type : String) (cfg : Settings) :
    Option (List String) :=
  if list_type = "blacklist" then cfg.blacklist
  else if list_type = "whitelist" then cfg.whitelist
  else none

/-- The info line logged by `restrict` on a fresh block (lines 92-93). -/
def restrict_log_line (list_type name : String) : String :=
  let modifier_word := if list_type = "whitelist" then "not" else ""
  "User " ++ name ++ " " ++ modifier_word ++ " in " ++ list_type ++
    ", blocking lookup"

/-- Result of one call through a `restrict`- or `manually_resolve`-wrapped
function: the Python return value (`Except.error` models an uncaught
exception), the `(name, args)` the wrapped function was invoked with (if
it was), the state of the module sets afterwards, and the info-log lines
the call emitted. -/
structure CallResult (α : Type) where
  result : Except String (Option α)
  invokedWith : Option (String × List String)
  state : SysState
  logs : List String

/-- The guard `collection and ((list_type == 'whitelist') ^ (name in
collection))` of line 91: truthiness of the selected collection, and the
exclusive-or of whitelist mode with membership. -/
def restrict_blocks (list_type : String) (cfg : Settings)
    (name : String) : Bool :=
  truthy (select_collection list_type cfg) &&
    Bool.xor (decide (list_type = "whitelist"))
      (decide (name ∈ (select_collection list_type cfg).getD []))

/-- One call through `restrict(list_type)(func)` (lines 77-100). `func`
stands for the wrapped function applied to its first positional argument
and the remaining `*args`; a function result is `.ok (some _)`, the two
blocking branches return Python `None`, i.e. `.ok none`. -/
def restrict_wrapper {α : Type} (list_type : String) (cfg : Settings)
    (func : String → List String → α) (name : String) (args : List String)
    (st : SysState) : CallResult α :=
  if name ∈ st.blocked then
    { result := .ok none, invokedWith := none, state := st, logs := [] }
  else if restrict_blocks list_type cfg name then
    { result := .ok none, invokedWith := none
      state := { st with blocked := name :: st.blocked }
      logs := [restrict_log_line list_type name] }
  else
    { result := .ok (some (func name args))
      invokedWith := some (name, args), state := st, logs := [] }

/-- The info line logged by `manually_resolve` on a fresh remap (line 150). -/
def resolve_log_line (name mapped_name : String) : String :=
  name ++ " in manual mapping configuration, doing lookup on " ++ mapped_name

/-- One call through `manually_resolve(func)` (lines 142-154). The sticky
path re-reads `Configuration.map_users[name]`, which raises (`.error`)
when the key is absent; the fresh-remap path is guarded by the dict being
truthy (non-empty) and containing the key. -/
def manually_resolve_wrapper {α : Type} (cfg : Settings)
    (func : String → List String → α) (name : String) (args : List String)
    (st : SysState) : CallResult α :=
  if name ∈ st.mapped then
    match lookup cfg.map_users name with
    | some m =>
        { result := .ok (some (func m args)), invokedWith := some (m, args)
          state := st, logs := [] }
    | none =>
        { result := .error "KeyError", invokedWith := none
          state := st, logs := [] }
  else if h : cfg.map_users.isEmpty = false ∧
      (lookup cfg.map_users name).isSome = true then
    let mapped_name := (lookup cfg.map_users name).get h.2
    { result := .ok (some (func mapped_name args))
      invokedWith := some (mapped_name, args)
      state := { st with mapped := name :: st.mapped }
      logs := [resolve_log_line name mapped_name] }
  else
    { result := .ok (some (func name args))
      invokedWith := some (name, args), state := st, logs := [] }

/-- One call through `with_token(service)(func)` (lines 118-130): always
invokes `func` with the untouched positional arguments and the injected
`_token` keyword. -/
def with_token_wrapper {α : Type} (service : String) (cfg : Settings)
    (func : List String → String → α) (args : List String) : α :=
  let token := if service = "Github" then cfg.github_token
    else cfg.slack_token
  func args token

/-- One call through `with_credentials(service)(func)` (lines 103-115):
for `service == 'Jira'` the wrapper reads `Configuration.jira_user` and
then `Configuration.jira_pass` — each raises `AttributeError` if
`__init__` never assigned it (i.e. `use_jira` was false) — and injects
them as `_usr`/`_pwd`; for any other service the local `usr` was never
assigned, so the wrapper raises `UnboundLocalError`. Either exception
fires before `func` is reached. -/
def with_credentials_wrapper {α : Type} (service : String) (cfg : Settings)
    (func : List String → Option String → Option String → α)
    (args : List String) : Except String α :=
  if service = "Jira" then
    match cfg.jira_user with
    | none => .error "AttributeError"
    | some usr =>
      match cfg.jira_pass with
      | none => .error "AttributeError"
      | some pwd => .ok (func args usr pwd)
  else
    .error "UnboundLocalError"

/-- One call through `repositories(func)` (lines 133-139):
`Configuration.repositories[organization]` raises `KeyError` when the key
is absent; otherwise the list is injected as `_repositories`. -/
def repositories_wrapper {α : Type} (cfg : Settings)
    (func : String → List String → List String → α)
    (organization : String) (args : List String) : Except String α :=
  match lookup cfg.repositories organization with
  | some repos => .ok (func organization args repos)
  | none => .error "KeyError"

/-- `repository_generator(repos)` (lines 66-74) as the full finite
sequence the generator yields: the configured `repositories` when no
argument is given, iterated owner-then-repository. -/
def repository_generator (cfg : Settings)
    (repos : Option (List (String × List String))) : List (String × String) :=
  ((repos.getD cfg.repositories).map
    (fun p => p.2.map (fun r => (p.1, r)))).flatten

/-- The state-relevant calls: only `restrict`- and `manually_resolve`-
wrapped calls touch the module sets `blocked`/`mapped`. -/
inductive Op where
  | restrictCall (list_type name : String)
  | resolveCall (name : String)
  deriving DecidableEq, Repr

/-- State transition of one wrapped call. The new state does not depend on
the wrapped function or its extra arguments (see `restrict_state_indep`
and `resolve_state_indep`), so `Unit` stands for any wrapped function. -/
def step (cfg : Settings) (st : SysState) : Op → SysState
  | .restrictCall lt n =>
      (restrict_wrapper lt cfg (fun _ _ => ()) n [] st).state
  | .resolveCall n =>
      (manually_resolve_wrapper cfg (fun _ _ => ()) n [] st).state

/-- Run a sequence of wrapped calls from a state. -/
def run (cfg : Settings) (st : SysState) : List Op → SysState
  | [] => st
  | op :: ops => run cfg (step cfg st op) ops

/-- A concrete settings value used to exercise the wrappers on concrete
inputs (Github/Slack tokens present, one manual user mapping, two
configured owners, a one-name whitelist, no blacklist). -/
def sampleSettings : Settings :=
  { github_token := "ghtok", slack_token := "sltok"
    jira_user := none, jira_pass := none
    map_users := [("jdoe", "john.doe")]
    repositories := [("acme", ["alpha", "beta"]), ("globex", ["gamma"])]
    whitelist := some ["alice"], blacklist := none
    use_jira := false, ignore_assigned := false, ignore_requested := false
    send_greeting := false, debug_uid := none
    default_email_domain := "example.com" }

/-- Concrete settings in which both name lists are configured falsy: the
whitelist as an empty YAML list (normalized by `py_and_set` to itself) and
the blacklist as YAML `null`. -/
def noListSettings : Settings :=
  { sampleSettings with whitelist := some [], blacklist := none }

/-- Concrete settings loaded with `use_jira: true` and both JIRA
environment variables present, so the credential attributes exist. -/
def jiraSettings : Settings :=
  { sampleSettings with
    use_jira := true
    jira_user := some (some "juser")
    jira_pass := some (some "jpass") }

/-- A concrete raw configuration with `use_jira: true`. -/
def jiraRaw : RawConfig :=
  { use_jira := true, manually_resolve_users := []
    repositories := [("acme", ["alpha"])]
    whitelist := none, blacklist := none
    ignore_no_assigned := false, ignore_no_requested := false
    send_greeting := false, default_email_domain := "example.com" }

/-- A concrete environment with both tokens set and no JIRA variables. -/
def jiraEnv : Env :=
  { github_api_token := some "ghtok", slack_api_token := some "sltok"
    jira_user := none, jira_pass := none, debug_uid := none }

/-! ### Basic facts about `lookup` and `keys` -/

lemma lookup_mem_keys {β : Type} {m : List (String × β)} {k : String} {v : β}
    (h : lookup m k = some v) : k ∈ keys m := by
  unfold lookup at h
  obtain ⟨p, hp, hv⟩ := Option.map_eq_some'.mp h
  have h1 : p.1 = k := by simpa using List.find?_some hp
  have h2 : p ∈ m := List.mem_of_find?_eq_some hp
  exact h1 ▸ List.mem_map_of_mem Prod.fst h2

lemma mem_keys_iff_lookup_isSome {β : Type} (m : List (String × β))
    (k : String) : k ∈ keys m ↔ (lookup m k).isSome = true := by
  constructor
  · intro h
    obtain ⟨p, hp, hpk⟩ := List.mem_map.mp h
    have : (m.find? (fun q => q.1 = k)).isSome = true := by
      rw [List.find?_isSome]
      exact ⟨p, hp, by simp [hpk]⟩
    unfold lookup
    cases hf : m.find? (fun q => q.1 = k) with
    | none => rw [hf] at this; cases this
    | some q => rfl
  · intro h
    obtain ⟨v, hv⟩ := Option.isSome_iff_exists.mp h
    exact lookup_mem_keys hv

lemma lookup_isSome_ne_nil {β : Type} {m : List (String × β)} {k : String}
    (h : (lookup m k).isSome = true) : m.isEmpty = false := by
  cases m with
  | nil => simp [lookup] at h
  | cons p tl => rfl

/-! ### Branch characterizations of the wrappers -/

lemma restrict_wrapper_blocked {α : Type} (lt : String) (cfg : Settings)
    (func : String → List String → α) (name : String) (args : List String)
    (st : SysState) (h : name ∈ st.blocked) :
    restrict_wrapper lt cfg func name args st =
      { result := .ok none, invokedWith := none, state := st, logs := [] } := by
  simp [restrict_wrapper, h]

lemma restrict_wrapper_fresh_block {α : Type} (lt : String) (cfg : Settings)
    (func : String → List String → α) (name : String) (args : List String)
    (st : SysState) (h1 : name ∉ st.blocked)
    (h2 : restrict_blocks lt cfg name = true) :
    restrict_wrapper lt cfg func name args st =
      { result := .ok none, invokedWith := none
        state := { st with blocked := name :: st.blocked }
        logs := [restrict_log_line lt name] } := by
  simp [restrict_wrapper, h1, h2]

lemma restrict_wrapper_pass {α : Type} (lt : String) (cfg : Settings)
    (func : String → List String → α) (name : String) (args : List String)
    (st : SysState) (h1 : name ∉ st.blocked)
    (h2 : restrict_blocks lt cfg name = false) :
    restrict_wrapper lt cfg func name args st =
      { result := .ok (some (func name args))
        invokedWith := some (name, args), state := st, logs := [] } := by
  simp [restrict_wrapper, h1, h2]

lemma manually_resolve_sticky_hit {α : Type} {cfg : Settings}
    (func : String → List String → α) (args : List String) {st : SysState}
    {name m : String} (h : name ∈ st.mapped)
    (hl : lookup cfg.map_users name = some m) :
    manually_resolve_wrapper cfg func name args st =
      { result := .ok (some (func m args)), invokedWith := some (m, args)
        state := st, logs := [] } := by
  simp [manually_resolve_wrapper, h, hl]

lemma manually_resolve_sticky_miss {α : Type} {cfg : Settings}
    (func : String → List String → α) (args : List String) {st : SysState}
    {name : String} (h : name ∈ st.mapped)
    (hl : lookup cfg.map_users name = none) :
    manually_resolve_wrapper cfg func name args st =
      { result := .error "KeyError", invokedWith := none
        state := st, logs := [] } := by
  simp [manually_resolve_wrapper, h, hl]

lemma manually_resolve_fresh {α : Type} {cfg : Settings}
    (func : String → List String → α) (args : List String) {st : SysState}
    {name m : String} (h : name ∉ st.mapped)
    (hl : lookup cfg.map_users name = some m) :
    manually_resolve_wrapper cfg func name args st =
      { result := .ok (some (func m args)), invokedWith := some (m, args)
        state := { st with mapped := name :: st.mapped }
        logs := [resolve_log_line name m] } := by
  have hs : (lookup cfg.map_users name).isSome = true := by simp [hl]
  have hne : cfg.map_users.isEmpty = false := lookup_isSome_ne_nil hs
  simp [manually_resolve_wrapper, h, hl, hne]

lemma manually_resolve_pass {α : Type} {cfg : Settings}
    (func : String → List String → α) (args : List String) {st : SysState}
    {name : String} (h : name ∉ st.mapped)
    (hl : lookup cfg.map_users name = none) :
    manually_resolve_wrapper cfg func name args st =
      { result := .ok (some (func name args))
        invokedWith := some (name, args), state := st, logs := [] } := by
  simp [manually_resolve_wrapper, h, hl]

/-! ### State evolution -/

lemma step_restrict (cfg : Settings) (st : SysState) (lt n : String) :
    step cfg st (.restrictCall lt n) =
      if n ∈ st.blocked then st
      else if restrict_blocks lt cfg n then
        { st with blocked := n :: st.blocked }
      else st := by
  by_cases h1 : n ∈ st.blocked
  · rw [if_pos h1]
    simp only [step, restrict_wrapper_blocked _ _ _ _ _ _ h1]
  · rw [if_neg h1]
    by_cases h2 : restrict_blocks lt cfg n
    · rw [if_pos h2]
      simp only [step, restrict_wrapper_fresh_block _ _ _ _ _ _ h1 h2]
    · rw [if_neg h2]
      simp only [step,
        restrict_wrapper_pass _ _ _ _ _ _ h1 (Bool.of_not_eq_true h2)]

lemma step_resolve (cfg : Settings) (st : SysState) (n : String) :
    step cfg st (.resolveCall n) =
      if n ∈ st.mapped then st
      else if (lookup cfg.map_users n).isSome = true then
        { st with mapped := n :: st.mapped }
      else st := by
  by_cases h1 : n ∈ st.mapped
  · rw [if_pos h1]
    cases hl : lookup cfg.map_users n with
    | some m => simp only [step, manually_resolve_sticky_hit _ _ h1 hl]
    | none => simp only [step, manually_resolve_sticky_miss _ _ h1 hl]
  · rw [if_neg h1]
    cases hl : lookup cfg.map_users n with
    | some m =>
      rw [if_pos (by simp [hl])]
      simp only [step, manually_resolve_fresh _ _ h1 hl]
    | none =>
      rw [if_neg (by simp [hl])]
      simp only [step, manually_resolve_pass _ _ h1 hl]

lemma step_blocked_mono (cfg : Settings) (st : SysState) (op : Op) :
    st.blocked ⊆ (step cfg st op).blocked := by
  cases op with
  | restrictCall lt n =>
    rw [step_restrict]
    split
    · exact fun x hx => hx
    · split
      · exact fun x hx => List.mem_cons_of_mem _ hx
      · exact fun x hx => hx
  | resolveCall n =>
    rw [step_resolve]
    split
    · exact fun x hx => hx
    · split
      · exact fun x hx => hx
      · exact fun x hx => hx

lemma step_mapped_mono (cfg : Settings) (st : SysState) (op : Op) :
    st.mapped ⊆ (step cfg st op).mapped := by
  cases op with
  | restrictCall lt n =>
    rw [step_restrict]
    split
    · exact fun x hx => hx
    · split
      · exact fun x hx => hx
      · exact fun x hx => hx
  | resolveCall n =>
    rw [step_resolve]
    split
    · exact fun x hx => hx
    · split
      · exact fun x hx => List.mem_cons_of_mem _ hx
      · exact fun x hx => hx

lemma run_blocked_mono (cfg : Settings) (ops : List Op) :
    ∀ st : SysState, st.blocked ⊆ (run cfg st ops).blocked := by
  induction ops with
  | nil => exact fun st x hx => hx
  | cons op ops ih =>
    intro st
    exact (step_blocked_mono cfg st op).trans (ih (step cfg st op))

lemma run_mapped_mono (cfg : Settings) (ops : List Op) :
    ∀ st : SysState, st.mapped ⊆ (run cfg st ops).mapped := by
  induction ops with
  | nil => exact fun st x hx => hx
  | cons op ops ih =>
    intro st
    exact (step_mapped_mono cfg st op).trans (ih (step cfg st op))

lemma step_mapped_keys (cfg : Settings) (st : SysState) (op : Op)
    (h : ∀ x ∈ st.mapped, x ∈ keys cfg.map_users) :
    ∀ x ∈ (step cfg st op).mapped, x ∈ keys cfg.map_users := by
  cases op with
  | restrictCall lt n =>
    rw [step_restrict]
    split
    · exact h
    · split
      · exact h
      · exact h
  | resolveCall n =>
    rw [step_resolve]
    split
    · exact h
    · split
      · next hsome =>
        intro x hx
        rcases List.mem_cons.mp hx with rfl | hx
        · exact (mem_keys_iff_lookup_isSome cfg.map_users x).mpr hsome
        · exact h x hx
      · exact h

lemma run_mapped_keys (cfg : Settings) (ops : List Op) :
    ∀ st : SysState, (∀ x ∈ st.mapped, x ∈ keys cfg.map_users) →
      ∀ x ∈ (run cfg st ops).mapped, x ∈ keys cfg.map_users := by
  induction ops with
  | nil => exact fun st h => h
  | cons op ops ih =>
    intro st h
    exact ih (step cfg st op) (step_mapped_keys cfg st op h)

/-! ### Claim theorems -/

/-- Claim C1, counterexample: with `use_jira: true`, both tokens set, and
the JIRA environment variables unset, `_config.__init__` does NOT exit: it
produces a settings object (whose JIRA attributes are assigned the Python
`None` that `os.getenv` returned), contradicting the claim that loading
fails fatally whenever `useJira` is true and a JIRA credential is
missing. -/
theorem jira_missing_still_loads :
    jiraRaw.use_jira = true ∧ jiraEnv.jira_user = none ∧
    jiraEnv.jira_pass = none ∧
    config_init jiraRaw jiraEnv =
      some { github_token := "ghtok", slack_token := "sltok"
             jira_user := some none, jira_pass := some none
             map_users := [], repositories := [("acme", ["alpha"])]
             whitelist := none, blacklist := none
             use_jira := true, ignore_assigned := false
             ignore_requested := false, send_greeting := false
             debug_uid := none, default_email_domain := "example.com" } := by
  refine ⟨rfl, rfl, rfl, rfl⟩

/-- Claim C1, amended: `_config.__init__` fails fatally (exits, handing no
settings to callers) exactly when the Slack token or the Github token is
missing from the environment; missing JIRA credentials never cause the
constructor to fail, even when `use_jira` is true. -/
theorem config_fatal_iff_tokens_missing (configs : RawConfig) (env : Env) :
    config_init configs env = none ↔
      env.slack_api_token = none ∨ env.github_api_token = none := by
  obtain ⟨g, s, ju, jp, du⟩ := env
  cases s <;> cases g <;> simp [config_init]

/-- Claim C2: once a name is in the module-level `blocked` set, every call
through any `restrict`-wrapped function with that name — whatever the
`list_type`, including `'none'` — returns Python `None` without invoking
the wrapped function, without logging, and without touching the state; and
over any further sequence of wrapped calls the `blocked` set only grows
(so the name stays blocked forever). -/
theorem blocked_sticky_quiet_and_monotone {α : Type} (cfg : Settings)
    (list_type : String) (func : String → List String → α) (name : String)
    (args : List String) (st : SysState) (ops : List Op)
    (h : name ∈ st.blocked) :
    (restrict_wrapper list_type cfg func name args st).result = .ok none ∧
    (restrict_wrapper list_type cfg func name args st).invokedWith = none ∧
    (restrict_wrapper list_type cfg func name args st).logs = [] ∧
    (restrict_wrapper list_type cfg func name args st).state = st ∧
    name ∈ (run cfg st ops).blocked ∧
    st.blocked ⊆ (run cfg st ops).blocked := by
  rw [restrict_wrapper_blocked _ _ _ _ _ _ h]
  exact ⟨rfl, rfl, rfl, rfl, run_blocked_mono cfg ops st h,
    run_blocked_mono cfg ops st⟩

/-- Witness for C2 at a concrete input: `"alice"` is already blocked, the
call goes through `restrict('none')`, and one further resolver call runs
afterwards. -/
theorem blocked_sticky_quiet_and_monotone_witness :
    (restrict_wrapper "none" sampleSettings (fun n _ => n) "alice" ["x"]
      (SysState.mk ["alice"] [])).result = .ok none ∧
    (restrict_wrapper "none" sampleSettings (fun n _ => n) "alice" ["x"]
      (SysState.mk ["alice"] [])).invokedWith = none ∧
    (restrict_wrapper "none" sampleSettings (fun n _ => n) "alice" ["x"]
      (SysState.mk ["alice"] [])).logs = [] ∧
    (restrict_wrapper "none" sampleSettings (fun n _ => n) "alice" ["x"]
      (SysState.mk ["alice"] [])).state = SysState.mk ["alice"] [] ∧
    "alice" ∈ (run sampleSettings (SysState.mk ["alice"] [])
      [Op.resolveCall "jdoe"]).blocked ∧
    (SysState.mk ["alice"] []).blocked ⊆
      (run sampleSettings (SysState.mk ["alice"] [])
        [Op.resolveCall "jdoe"]).blocked :=
  blocked_sticky_quiet_and_monotone sampleSettings "none" (fun n _ => n)
    "alice" ["x"] (SysState.mk ["alice"] []) [Op.resolveCall "jdoe"]
    (List.mem_cons_self "alice" [])

/-- Claim C3: for a name not yet blocked and a truthy configured
collection for `list_type`, the call is blocked — returns `None`, invokes
nothing, logs exactly one line, adds the name to `blocked` — exactly when
`(list_type == 'whitelist') XOR (name in collection)`; otherwise the
wrapped function is invoked with the original arguments and its result
returned, with no state change and no log. -/
theorem restrict_xor_characterization {α : Type} (cfg : Settings)
    (list_type : String) (func : String → List String → α) (name : String)
    (args : List String) (st : SysState)
    (h1 : name ∉ st.blocked)
    (h2 : truthy (select_collection list_type cfg) = true) :
    restrict_wrapper list_type cfg func name args st =
      if Bool.xor (decide (list_type = "whitelist"))
          (decide (name ∈ (select_collection list_type cfg).getD [])) then
        { result := .ok none, invokedWith := none
          state := { st with blocked := name :: st.blocked }
          logs := [restrict_log_line list_type name] }
      else
        { result := .ok (some (func name args))
          invokedWith := some (name, args), state := st, logs := [] } := by
  cases hx : Bool.xor (decide (list_type = "whitelist"))
      (decide (name ∈ (select_collection list_type cfg).getD [])) with
  | true =>
    rw [if_pos rfl]
    exact restrict_wrapper_fresh_block _ _ _ _ _ _ h1
      (by simp [restrict_blocks, h2, hx])
  | false =>
    rw [if_neg (by simp)]
    exact restrict_wrapper_pass _ _ _ _ _ _ h1
      (by simp [restrict_blocks, h2, hx])

/-- Witness for C3 at a concrete input: whitelist mode with whitelist
`["alice"]` and name `"bob"` (absent, so the XOR is true and the call is
blocked). -/
theorem restrict_xor_characterization_witness :
    restrict_wrapper "whitelist" sampleSettings (fun n _ => n) "bob" ["x"]
      initState =
      if Bool.xor (decide (("whitelist" : String) = "whitelist"))
          (decide ("bob" ∈
            (select_collection "whitelist" sampleSettings).getD [])) then
        { result := .ok none, invokedWith := none
          state := { initState with blocked := "bob" :: initState.blocked }
          logs := [restrict_log_line "whitelist" "bob"] }
      else
        { result := .ok (some "bob")
          invokedWith := some ("bob", ["x"]), state := initState
          logs := [] } :=
  restrict_xor_characterization sampleSettings "whitelist" (fun n _ => n)
    "bob" ["x"] initState (by decide) (by decide)

/-- Claim C4: under `manually_resolve`, a first call with a name that is a
key of the configured map logs once, adds the name to `mapped`, and
invokes the wrapped function with the mapped name; a second call with the
same name invokes it with the current map value without re-logging; and a
call with a name neither in the map nor in `mapped` invokes the wrapped
function with the name unchanged. -/
theorem manually_resolve_behavior {α : Type} (cfg : Settings)
    (func : String → List String → α) (name other m : String)
    (args : List String) (st : SysState)
    (h1 : name ∉ st.mapped) (h2 : lookup cfg.map_users name = some m)
    (h3 : other ∉ st.mapped) (h4 : lookup cfg.map_users other = none) :
    manually_resolve_wrapper cfg func name args st =
      { result := .ok (some (func m args)), invokedWith := some (m, args)
        state := { st with mapped := name :: st.mapped }
        logs := [resolve_log_line name m] } ∧
    manually_resolve_wrapper cfg func name args
        ((manually_resolve_wrapper cfg func name args st).state) =
      { result := .ok (some (func m args)), invokedWith := some (m, args)
        state := { st with mapped := name :: st.mapped }, logs := [] } ∧
    manually_resolve_wrapper cfg func other args st =
      { result := .ok (some (func other args))
        invokedWith := some (other, args), state := st, logs := [] } := by
  have hfst := manually_resolve_fresh func args h1 h2
  refine ⟨hfst, ?_, manually_resolve_pass func args h3 h4⟩
  rw [hfst]
  exact manually_resolve_sticky_hit func args
    (List.mem_cons_self name st.mapped) h2

/-- Witness for C4 at a concrete input: map `{"jdoe": "john.doe"}`, first
and second call with `"jdoe"`, one call with the unmapped `"asmith"`. -/
theorem manually_resolve_behavior_witness :
    manually_resolve_wrapper sampleSettings (fun n _ => n) "jdoe" []
      initState =
      { result := .ok (some "john.doe")
        invokedWith := some ("john.doe", [])
        state := { initState with mapped := "jdoe" :: initState.mapped }
        logs := [resolve_log_line "jdoe" "john.doe"] } ∧
    manually_resolve_wrapper sampleSettings (fun n _ => n) "jdoe" []
        ((manually_resolve_wrapper sampleSettings (fun n _ => n) "jdoe" []
          initState).state) =
      { result := .ok (some "john.doe")
        invokedWith := some ("john.doe", [])
        state := { initState with mapped := "jdoe" :: initState.mapped }
        logs := [] } ∧
    manually_resolve_wrapper sampleSettings (fun n _ => n) "asmith" []
      initState =
      { result := .ok (some "asmith"), invokedWith := some ("asmith", [])
        state := initState, logs := [] } :=
  manually_resolve_behavior sampleSettings (fun n _ => n) "jdoe" "asmith"
    "john.doe" [] initState (by decide) (by decide) (by decide) (by decide)

/-- Claim C5, counterexample: the credential decorators do have failure
paths, contradicting the claim. `with_credentials` with a service other
than `'Jira'` never assigns its local `usr`, so the call raises
`UnboundLocalError`; and with `service == 'Jira'` on a configuration
loaded with `use_jira: false`, `Configuration.jira_user` was never
assigned, so the call raises `AttributeError`. In neither case is the
wrapped function invoked. -/
theorem with_credentials_failure_paths :
    with_credentials_wrapper "Github" sampleSettings
      (fun args u _ => (args, u)) ["x"] = .error "UnboundLocalError" ∧
    sampleSettings.use_jira = false ∧
    with_credentials_wrapper "Jira" sampleSettings
      (fun args u _ => (args, u)) ["x"] = .error "AttributeError" :=
  ⟨rfl, rfl, rfl⟩

/-- Claim C5, amended: `with_token` never inspects or rejects the call —
for every service it completes the injection and invokes the wrapped
function. `with_credentials` completes the injection and invokes the
wrapped function only when `service == 'Jira'` and the JIRA credential
attributes were assigned at load time (`use_jira` true): with any other
service it raises an unbound-local error, and with `'Jira'` but the
attributes never assigned it raises an attribute error, in both cases
before the wrapped function is reached. -/
theorem credential_injection_amended {α β : Type} (cfg cfg2 : Settings)
    (ftok : List String → String → α)
    (fcred : List String → Option String → Option String → β)
    (args : List String) (service service2 : String)
    (usr pwd : Option String)
    (hs : service2 ≠ "Jira")
    (hu : cfg.jira_user = some usr) (hp : cfg.jira_pass = some pwd)
    (h2 : cfg2.jira_user = none) :
    with_token_wrapper service cfg ftok args =
      ftok args (if service = "Github" then cfg.github_token
        else cfg.slack_token) ∧
    with_credentials_wrapper "Jira" cfg fcred args =
      .ok (fcred args usr pwd) ∧
    with_credentials_wrapper service2 cfg fcred args =
      .error "UnboundLocalError" ∧
    with_credentials_wrapper "Jira" cfg2 fcred args =
      .error "AttributeError" := by
  refine ⟨rfl, ?_, ?_, ?_⟩
  · simp [with_credentials_wrapper, hu, hp]
  · simp [with_credentials_wrapper, hs]
  · simp [with_credentials_wrapper, h2]

/-- Witness for C5 (amended) at concrete inputs: tokens for `"Slack"`,
credentials for `"Jira"` on settings loaded with `use_jira: true`, the
failing `"Github"` service, and the failing `"Jira"` call on settings
loaded with `use_jira: false`. -/
theorem credential_injection_amended_witness :
    with_token_wrapper "Slack" jiraSettings (fun a t => (a, t)) ["x"] =
      (["x"], if ("Slack" : String) = "Github" then
        jiraSettings.github_token else jiraSettings.slack_token) ∧
    with_credentials_wrapper "Jira" jiraSettings
        (fun a u p => (a, u, p)) ["x"] =
      .ok (["x"], some "juser", some "jpass") ∧
    with_credentials_wrapper "Github" jiraSettings
        (fun a u p => (a, u, p)) ["x"] =
      .error "UnboundLocalError" ∧
    with_credentials_wrapper "Jira" sampleSettings
        (fun a u p => (a, u, p)) ["x"] =
      .error "AttributeError" :=
  credential_injection_amended jiraSettings sampleSettings
    (fun a t => (a, t)) (fun a u p => (a, u, p)) ["x"] "Slack" "Github"
    (some "juser") (some "jpass") (by decide) rfl rfl rfl

/-- Claim C6: when both the whitelist and the blacklist are configured
falsy — `null` (absent) or an empty list, which is what the `x and {*x}`
normalization produces for them — every name not already blocked passes
through any `restrict`-wrapped function unchanged: the wrapped function
gets the original arguments, nothing is logged, and the state (in
particular the `blocked` set) is untouched. -/
theorem absent_lists_pass_through {α : Type} (cfg : Settings)
    (list_type : String) (func : String → List String → α) (name : String)
    (args : List String) (st : SysState)
    (wRaw bRaw : Option (List String))
    (hw : cfg.whitelist = py_and_set wRaw)
    (hb : cfg.blacklist = py_and_set bRaw)
    (hwa : wRaw = none ∨ wRaw = some [])
    (hba : bRaw = none ∨ bRaw = some [])
    (h1 : name ∉ st.blocked) :
    restrict_wrapper list_type cfg func name args st =
      { result := .ok (some (func name args))
        invokedWith := some (name, args), state := st, logs := [] } := by
  have hwt : truthy cfg.whitelist = false := by
    rcases hwa with rfl | rfl <;> simp [hw, py_and_set, truthy]
  have hbt : truthy cfg.blacklist = false := by
    rcases hba with rfl | rfl <;> simp [hb, py_and_set, truthy]
  refine restrict_wrapper_pass _ _ _ _ _ _ h1 ?_
  unfold restrict_blocks select_collection
  split
  · rw [hbt, Bool.false_and]
  · split
    · rw [hwt, Bool.false_and]
    · rfl

/-- Witness for C6 at a concrete input: whitelist configured as the empty
list, blacklist as `null`, blacklist mode, fresh name `"frank"`. -/
theorem absent_lists_pass_through_witness :
    restrict_wrapper "blacklist" noListSettings (fun n _ => n) "frank"
      ["x"] initState =
      { result := .ok (some "frank"), invokedWith := some ("frank", ["x"])
        state := initState, logs := [] } :=
  absent_lists_pass_through noListSettings "blacklist" (fun n _ => n)
    "frank" ["x"] initState (some []) none rfl rfl (Or.inr rfl) (Or.inl rfl)
    (by decide)

/-- Claim C7: a `with_token`-wrapped call injects the configured Github
token when `service == 'Github'` and the configured Slack token for any
other service, passing the positional arguments through unchanged; the
wrapper reads only the immutable settings, so repeated calls inject the
identical value. -/
theorem with_token_injection {α : Type} (cfg : Settings)
    (func : List String → String → α) (args : List String)
    (service : String) (hs : service ≠ "Github") :
    with_token_wrapper "Github" cfg func args =
      func args cfg.github_token ∧
    with_token_wrapper service cfg func args =
      func args cfg.slack_token ∧
    with_token_wrapper "Github" cfg func args =
      with_token_wrapper "Github" cfg func args ∧
    with_token_wrapper service cfg func args =
      with_token_wrapper service cfg func args := by
  refine ⟨rfl, ?_, rfl, rfl⟩
  simp [with_token_wrapper, hs]

/-- Witness for C7 at a concrete input: the `"Github"` and `"Slack"`
services on the sample settings. -/
theorem with_token_injection_witness :
    with_token_wrapper "Github" sampleSettings (fun a t => (a, t)) ["x"] =
      (["x"], sampleSettings.github_token) ∧
    with_token_wrapper "Slack" sampleSettings (fun a t => (a, t)) ["x"] =
      (["x"], sampleSettings.slack_token) ∧
    with_token_wrapper "Github" sampleSettings (fun a t => (a, t)) ["x"] =
      with_token_wrapper "Github" sampleSettings (fun a t => (a, t)) ["x"] ∧
    with_token_wrapper "Slack" sampleSettings (fun a t => (a, t)) ["x"] =
      with_token_wrapper "Slack" sampleSettings (fun a t => (a, t)) ["x"] :=
  with_token_injection sampleSettings (fun a t => (a, t)) ["x"] "Slack"
    (by decide)

lemma mem_repository_generator (cfg : Settings)
    (m : List (String × List String)) (o r : String) :
    (o, r) ∈ repository_generator cfg (some m) ↔
      ∃ l, (o, l) ∈ m ∧ r ∈ l := by
  simp only [repository_generator, Option.getD_some, List.mem_flatten,
    List.mem_map]
  constructor
  · rintro ⟨L, ⟨p, hp, rfl⟩, hmem⟩
    obtain ⟨x, hx, hxe⟩ := List.mem_map.mp hmem
    obtain ⟨h1, h2⟩ := Prod.mk.injEq _ _ _ _ ▸ hxe
    subst h1; subst h2
    exact ⟨p.2, by simpa using hp, hx⟩
  · rintro ⟨l, hl, hr⟩
    exact ⟨l.map (fun x => (o, x)), ⟨(o, l), hl, rfl⟩,
      List.mem_map_of_mem _ hr⟩

/-- Claim C8: `repository_generator` yields the finite sequence of
`(owner, repository)` pairs of the given mapping — a pair is yielded
exactly when the mapping has that owner with that repository in its list —
in owner-then-repository order (the first owner's repositories, in order,
come before the rest); with no argument it runs over the configured
`repositories`; and as a pure function of the mapping it is restartable:
independent instances over the same mapping are the identical sequence. -/
theorem repository_generator_spec (cfg : Settings)
    (m : List (String × List String)) (o : String) (rs : List String)
    (r : String) :
    ((o, r) ∈ repository_generator cfg (some m) ↔
      ∃ l, (o, l) ∈ m ∧ r ∈ l) ∧
    repository_generator cfg (some ((o, rs) :: m)) =
      rs.map (fun x => (o, x)) ++ repository_generator cfg (some m) ∧
    repository_generator cfg none =
      repository_generator cfg (some cfg.repositories) ∧
    repository_generator cfg (some m) =
      repository_generator cfg (some m) := by
  refine ⟨mem_repository_generator cfg m o r, ?_, rfl, rfl⟩
  simp [repository_generator]

/-- Claim C9: the `repositories` decorator invokes the wrapped function
with the organization unchanged plus the configured repository list for it
injected, when the organization is a configured key; for an organization
that is not a configured key the dict subscript raises `KeyError`, which
propagates to the caller. -/
theorem repositories_injection_or_keyerror {α : Type} (cfg : Settings)
    (func : String → List String → List String → α)
    (org org2 : String) (args : List String) (repos : List String)
    (h1 : lookup cfg.repositories org = some repos)
    (h2 : org2 ∉ keys cfg.repositories) :
    repositories_wrapper cfg func org args = .ok (func org args repos) ∧
    repositories_wrapper cfg func org2 args = .error "KeyError" := by
  constructor
  · simp [repositories_wrapper, h1]
  · have hl : lookup cfg.repositories org2 = none := by
      cases hl : lookup cfg.repositories org2 with
      | none => rfl
      | some v => exact absurd (lookup_mem_keys hl) h2
    simp [repositories_wrapper, hl]

/-- Witness for C9 at a concrete input: the configured owner `"acme"` and
the unconfigured `"initech"` on the sample settings. -/
theorem repositories_injection_or_keyerror_witness :
    repositories_wrapper sampleSettings (fun o a l => (o, a, l)) "acme"
      ["x"] = .ok ("acme", ["x"], ["alpha", "beta"]) ∧
    repositories_wrapper sampleSettings (fun o a l => (o, a, l)) "initech"
      ["x"] = .error "KeyError" :=
  repositories_injection_or_keyerror sampleSettings (fun o a l => (o, a, l))
    "acme" "initech" ["x"] ["alpha", "beta"] (by decide) (by decide)

/-- Claim C10: in every state reachable from the initial one, the `mapped`
set is contained in the keys of `manually_resolve_users`, because a name
is added only after a successful membership check; hence the sticky path's
`map_users[name]` lookup for a name in `mapped` succeeds and the call
returns the wrapped function's value at the current map value, never a
`KeyError`. -/
theorem mapped_subset_map_keys {α : Type} (cfg : Settings)
    (func : String → List String → α) (name : String) (args : List String)
    (ops : List Op)
    (h : name ∈ (run cfg initState ops).mapped) :
    (run cfg initState ops).mapped ⊆ keys cfg.map_users ∧
    (lookup cfg.map_users name).isSome = true ∧
    (manually_resolve_wrapper cfg func name args
        (run cfg initState ops)).result =
      .ok (some (func ((lookup cfg.map_users name).getD name) args)) := by
  have hsub : ∀ x ∈ (run cfg initState ops).mapped, x ∈ keys cfg.map_users :=
    run_mapped_keys cfg ops initState (by intro x hx; cases hx)
  have hs : (lookup cfg.map_users name).isSome = true :=
    (mem_keys_iff_lookup_isSome cfg.map_users name).mp (hsub name h)
  obtain ⟨m, hm⟩ := Option.isSome_iff_exists.mp hs
  refine ⟨hsub, hs, ?_⟩
  rw [manually_resolve_sticky_hit func args h hm, hm]
  rfl

/-- Witness for C10 at a concrete input: after one resolver call with
`"jdoe"`, the name is in `mapped` and the sticky path returns the mapped
value. -/
theorem mapped_subset_map_keys_witness :
    (run sampleSettings initState [Op.resolveCall "jdoe"]).mapped ⊆
      keys sampleSettings.map_users ∧
    (lookup sampleSettings.map_users "jdoe").isSome = true ∧
    (manually_resolve_wrapper sampleSettings (fun n _ => n) "jdoe" ["x"]
        (run sampleSettings initState [Op.resolveCall "jdoe"])).result =
      .ok (some ((lookup sampleSettings.map_users "jdoe").getD "jdoe")) :=
  mapped_subset_map_keys sampleSettings (fun n _ => n) "jdoe" ["x"]
    [Op.resolveCall "jdoe"] (by decide)

end Octonag
